import Mathlib

/-!
# Verification of the DualBoard drawing engine

A shallow embedding of the drawing engine of the DualBoard repository
(`src/project/src/hooks/useDrawing.ts`, `src/project/src/components/Canvas.tsx`,
`src/project/src/components/DrawingCanvas.tsx`, types from
`src/project/src/types/drawing.ts`), together with proofs of the specified
properties of the history mechanism, the eraser hit-tester and the
view-transform subsystem.

Modelling conventions:
* JavaScript numbers are embedded as exact rationals (`ℚ`); all arithmetic in
  the modelled code paths is +, −, ×, ÷ and comparisons, which the rationals
  model exactly.
* `Math.sqrt(d) <= r` (for `d = dx² + dy² ≥ 0`) is modelled by the equivalent
  real-number condition `0 ≤ r ∧ d ≤ r * r`, avoiding an irrational square
  root; `Math.sqrt(d) > r` is its negation.
* The React hook's `useState`/`useRef` cell contents are gathered into an
  explicit state record (`HookState`); each callback becomes a state-to-state
  function, and the sequential `setState` calls inside a callback become
  function composition, which is exact for this single-threaded code.
-/

/-! ## Data model (`types/drawing.ts`) -/

/-- `Point {x, y}` in canvas-space coordinates. -/
structure Point where
  x : ℚ
  y : ℚ
deriving DecidableEq, Repr

/-- `DrawingTool` union type. -/
inductive DrawingTool where
  | pen | eraser | rectangle | ellipse | line | arrow | text
deriving DecidableEq, Repr

/-- The `type` field of `DrawingShape`. -/
inductive ShapeType where
  | rectangle | ellipse | line | arrow
deriving DecidableEq, Repr

/-- `DrawingStroke`. -/
structure DrawingStroke where
  id : String
  tool : DrawingTool
  points : List Point
  color : String
  width : ℚ
  isComplete : Bool
deriving DecidableEq, Repr

/-- `DrawingShape`. -/
structure DrawingShape where
  id : String
  type : ShapeType
  startPoint : Point
  endPoint : Point
  color : String
  width : ℚ
  isComplete : Bool
deriving DecidableEq, Repr

/-- `DrawingText`. -/
structure DrawingText where
  id : String
  text : String
  position : Point
  color : String
  fontSize : ℚ
  fontFamily : String
deriving DecidableEq, Repr

/-- `DrawingElement`: the tagged union of the four element variants. -/
structure DrawingImage where
  id : String
  src : String
  position : Point
  width : ℚ
  height : ℚ
deriving DecidableEq, Repr

/-- `DrawingElement = DrawingStroke | DrawingShape | DrawingText | DrawingImage`. -/
inductive DrawingElement where
  | stroke (s : DrawingStroke)
  | shape (s : DrawingShape)
  | text (t : DrawingText)
  | image (i : DrawingImage)
deriving DecidableEq, Repr

/-- The `id` field shared by every element variant. -/
def DrawingElement.elemId : DrawingElement → String
  | .stroke s => s.id
  | .shape s => s.id
  | .text t => t.id
  | .image i => i.id

/-- `DrawingState` (types/drawing.ts). -/
structure DrawingState where
  elements : List DrawingElement
  undoStack : List (List DrawingElement)
  redoStack : List (List DrawingElement)
  currentTool : DrawingTool
  currentColor : String
  currentWidth : ℚ
  showGrid : Bool
  tutorAtBottom : Bool
  isFullscreen : Bool
deriving DecidableEq, Repr

/-- The full mutable state of the `useDrawing` hook: the `useState` record plus
the `currentStrokeRef`, `currentShapeRef` and `isDrawingRef` ref cells. -/
structure HookState where
  drawing : DrawingState
  currentStroke : Option DrawingStroke
  currentShape : Option DrawingShape
  isDrawing : Bool
deriving DecidableEq, Repr

/-! ## Squared-distance helpers -/

/-- Squared Euclidean distance between two points, i.e. the argument of the
`Math.sqrt` calls in `eraseAtPoint`. -/
def sqDist (p q : Point) : ℚ :=
  (p.x - q.x) * (p.x - q.x) + (p.y - q.y) * (p.y - q.y)

/-- `distance ≤ r` for `distance = Math.sqrt (sqDist p q)`, expressed without a
square root: exact over the reals because `√d ≤ r ↔ 0 ≤ r ∧ d ≤ r²`. -/
def distLe (p q : Point) (r : ℚ) : Prop :=
  0 ≤ r ∧ sqDist p q ≤ r * r

instance (p q : Point) (r : ℚ) : Decidable (distLe p q r) := by
  unfold distLe; infer_instance

/-! ## useDrawing.ts operations -/

/-- `addElement` (useDrawing.ts:21-26): append an element. -/
def addElement (e : DrawingElement) (h : HookState) : HookState :=
  { h with drawing := { h.drawing with elements := h.drawing.elements ++ [e] } }

/-- `updateElement` (useDrawing.ts:28-35): apply an update to the elements with
a matching id.  The TS code merges a record of updated fields
(`{ ...el, ...updates }`); here the merge performed at each call site is
passed as a function. -/
def updateElements (els : List DrawingElement) (id : String)
    (f : DrawingElement → DrawingElement) : List DrawingElement :=
  els.map fun el => if el.elemId = id then f el else el

/-- `saveToUndoStack` (useDrawing.ts:44-50): push a value copy of the current
element sequence onto `undoStack` and clear `redoStack`. -/
def saveToUndoStack (h : HookState) : HookState :=
  { h with drawing :=
      { h.drawing with
        undoStack := h.drawing.undoStack ++ [h.drawing.elements]
        redoStack := [] } }

/-- The element-keeping predicate inside the `filter` of `eraseAtPoint`
(useDrawing.ts:54-135): `true` keeps the element, `false` erases it.  The TS
duck-typing chain (`'points' in element`, then `startPoint`/`endPoint`, then
`'position'`) dispatches exactly on the four variants of the tagged union. -/
def keepElement (point : Point) (eraseRadius : ℚ) : DrawingElement → Bool
  | .stroke s =>
      -- strokes: erased when some path point is within the erase radius
      ! s.points.any fun p => decide (distLe p point eraseRadius)
  | .shape sh =>
      match sh.type with
      | .rectangle =>
          -- inside the bounding box inflated by the radius ⇒ erased
          let minX := min sh.startPoint.x sh.endPoint.x
          let maxX := max sh.startPoint.x sh.endPoint.x
          let minY := min sh.startPoint.y sh.endPoint.y
          let maxY := max sh.startPoint.y sh.endPoint.y
          ! decide (point.x ≥ minX - eraseRadius ∧ point.x ≤ maxX + eraseRadius ∧
                    point.y ≥ minY - eraseRadius ∧ point.y ≤ maxY + eraseRadius)
      | .ellipse =>
          -- normalized distance to the ellipse inflated by the radius
          let centerX := (sh.startPoint.x + sh.endPoint.x) / 2
          let centerY := (sh.startPoint.y + sh.endPoint.y) / 2
          let radiusX := |sh.endPoint.x - sh.startPoint.x| / 2
          let radiusY := |sh.endPoint.y - sh.startPoint.y| / 2
          let normalizedX := (point.x - centerX) / (radiusX + eraseRadius)
          let normalizedY := (point.y - centerY) / (radiusY + eraseRadius)
          decide (normalizedX * normalizedX + normalizedY * normalizedY > 1)
      | .line | .arrow =>
          -- distance from the point to the segment, clamped projection
          let dx := sh.endPoint.x - sh.startPoint.x
          let dy := sh.endPoint.y - sh.startPoint.y
          let len2 := dx * dx + dy * dy
          if len2 = 0 then
            -- `lineLength === 0`: the segment is a point
            ! decide (distLe point sh.startPoint eraseRadius)
          else
            let t := max 0 (min 1
              (((point.x - sh.startPoint.x) * dx + (point.y - sh.startPoint.y) * dy) / len2))
            let proj : Point := ⟨sh.startPoint.x + t * dx, sh.startPoint.y + t * dy⟩
            ! decide (distLe point proj eraseRadius)
  | .text t => ! decide (distLe t.position point eraseRadius)
  | .image i => ! decide (distLe i.position point eraseRadius)

/-- `eraseAtPoint` (useDrawing.ts:51-137): filter out the elements hit at
`point` (default radius 20 at both call sites). -/
def eraseAtPoint (point : Point) (eraseRadius : ℚ) (h : HookState) : HookState :=
  { h with drawing :=
      { h.drawing with elements := h.drawing.elements.filter (keepElement point eraseRadius) } }

/-- The shape kind selected by `['rectangle','ellipse','line','arrow'].includes(tool)`. -/
def DrawingTool.shapeType : DrawingTool → Option ShapeType
  | .rectangle => some .rectangle
  | .ellipse => some .ellipse
  | .line => some .line
  | .arrow => some .arrow
  | _ => none

/-- `startDrawing` (useDrawing.ts:139-171).  `newId` stands for the freshly
generated id string (`Date.now()`/`Math.random()`). -/
def startDrawing (newId : String) (point : Point) (h0 : HookState) : HookState :=
  let h := saveToUndoStack { h0 with isDrawing := true }
  match h.drawing.currentTool with
  | .pen =>
      let newStroke : DrawingStroke :=
        { id := newId, tool := .pen, points := [point],
          color := h.drawing.currentColor, width := h.drawing.currentWidth,
          isComplete := false }
      addElement (.stroke newStroke) { h with currentStroke := some newStroke }
  | .eraser => eraseAtPoint point 20 h
  | t =>
      match t.shapeType with
      | some st =>
          let newShape : DrawingShape :=
            { id := newId, type := st, startPoint := point, endPoint := point,
              color := h.drawing.currentColor, width := h.drawing.currentWidth,
              isComplete := false }
          addElement (.shape newShape) { h with currentShape := some newShape }
      | none => h

/-- The `{ ...el, points: updatedPoints }` merge used by `continueDrawing` for
strokes (on the non-stroke variants the id never matches in well-formed
states, so the merge is the identity there). -/
def setStrokePoints (ps : List Point) : DrawingElement → DrawingElement
  | .stroke s => .stroke { s with points := ps }
  | e => e

/-- The `{ ...el, endPoint: point }` merge used by `continueDrawing` for shapes. -/
def setShapeEnd (p : Point) : DrawingElement → DrawingElement
  | .shape s => .shape { s with endPoint := p }
  | e => e

/-- The `{ ...el, isComplete: true }` merge used by `endDrawing`. -/
def markComplete : DrawingElement → DrawingElement
  | .stroke s => .stroke { s with isComplete := true }
  | .shape s => .shape { s with isComplete := true }
  | e => e

/-- `continueDrawing` (useDrawing.ts:173-186). -/
def continueDrawing (point : Point) (h : HookState) : HookState :=
  if h.isDrawing = false then h
  else if hp : h.drawing.currentTool = .pen ∧ h.currentStroke.isSome then
    let cs := h.currentStroke.get hp.2
    let updatedPoints := cs.points ++ [point]
    { h with
      currentStroke := some { cs with points := updatedPoints }
      drawing := { h.drawing with
        elements := updateElements h.drawing.elements cs.id (setStrokePoints updatedPoints) } }
  else if h.drawing.currentTool = .eraser then
    eraseAtPoint point 20 h
  else if hs : (h.drawing.currentTool.shapeType).isSome ∧ h.currentShape.isSome then
    let sh := h.currentShape.get hs.2
    { h with
      currentShape := some { sh with endPoint := point }
      drawing := { h.drawing with
        elements := updateElements h.drawing.elements sh.id (setShapeEnd point) } }
  else h

/-- `endDrawing` (useDrawing.ts:188-202): finalize the active element(s) and
clear the active references. -/
def endDrawing (h : HookState) : HookState :=
  if h.isDrawing = false then h
  else
    let h1 :=
      match h.currentStroke with
      | some cs =>
          { h with
            currentStroke := none
            drawing := { h.drawing with
              elements := updateElements h.drawing.elements cs.id markComplete } }
      | none => h
    let h2 :=
      match h1.currentShape with
      | some sh =>
          { h1 with
            currentShape := none
            drawing := { h1.drawing with
              elements := updateElements h1.drawing.elements sh.id markComplete } }
      | none => h1
    { h2 with isDrawing := false }

/-- `addText` (useDrawing.ts:204-207). -/
def addText (t : DrawingText) (h : HookState) : HookState :=
  addElement (.text t) (saveToUndoStack h)

/-- `addImage` (useDrawing.ts:209-212). -/
def addImage (i : DrawingImage) (h : HookState) : HookState :=
  addElement (.image i) (saveToUndoStack h)

/-- `clearCanvas` (useDrawing.ts:214-220): snapshot, then empty the elements. -/
def clearCanvas (h : HookState) : HookState :=
  let h1 := saveToUndoStack h
  { h1 with drawing := { h1.drawing with elements := [] } }

/-- The state updater inside `undo` (useDrawing.ts:222-237). -/
def undoDrawing (prev : DrawingState) : DrawingState :=
  match prev.undoStack.getLast? with
  | none => prev
  | some previousState =>
      { prev with
        elements := previousState
        undoStack := prev.undoStack.dropLast
        redoStack := prev.redoStack ++ [prev.elements] }

/-- `undo` (useDrawing.ts:222-237). -/
def undo (h : HookState) : HookState :=
  { h with drawing := undoDrawing h.drawing }

/-- The state updater inside `redo` (useDrawing.ts:239-254). -/
def redoDrawing (prev : DrawingState) : DrawingState :=
  match prev.redoStack.getLast? with
  | none => prev
  | some nextState =>
      { prev with
        elements := nextState
        redoStack := prev.redoStack.dropLast
        undoStack := prev.undoStack ++ [prev.elements] }

/-- `redo` (useDrawing.ts:239-254). -/
def redo (h : HookState) : HookState :=
  { h with drawing := redoDrawing h.drawing }

/-- `setTool` (useDrawing.ts:256-258). -/
def setTool (tool : DrawingTool) (h : HookState) : HookState :=
  { h with drawing := { h.drawing with currentTool := tool } }

/-- `flipRoles` (useDrawing.ts:272-274): toggle `tutorAtBottom`. -/
def flipRoles (h : HookState) : HookState :=
  { h with drawing := { h.drawing with tutorAtBottom := !h.drawing.tutorAtBottom } }

/-! ## View transform (Canvas.tsx, DrawingCanvas.tsx) -/

/-- `ViewTransform` (useCanvasInteractions.ts): pan offset and zoom scale. -/
structure ViewTransform where
  x : ℚ
  y : ℚ
  scale : ℚ
deriving DecidableEq, Repr

/-- The result of `canvas.getBoundingClientRect()` restricted to the fields the
code reads. -/
structure Rect where
  left : ℚ
  top : ℚ
  width : ℚ
  height : ℚ
deriving DecidableEq, Repr

/-- The x coordinate local to the canvas, reflected about the viewport center
when the canvas is rotated (Canvas.tsx:50-58 in `transformPoint`, and the same
adjustment in `zoom`, Canvas.tsx:300-308). -/
def adjX (isRotated : Bool) (rect : Rect) (clientX : ℚ) : ℚ :=
  if isRotated then rect.width - (clientX - rect.left) else clientX - rect.left

/-- The y counterpart of `adjX`. -/
def adjY (isRotated : Bool) (rect : Rect) (clientY : ℚ) : ℚ :=
  if isRotated then rect.height - (clientY - rect.top) else clientY - rect.top

/-- `transformPoint` (Canvas.tsx:43-65): reflect when rotated, then apply the
inverse pan/zoom transform. -/
def transformPoint (isRotated : Bool) (rect : Rect) (t : ViewTransform)
    (clientX clientY : ℚ) : Point :=
  { x := (adjX isRotated rect clientX - t.x) / t.scale
    y := (adjY isRotated rect clientY - t.y) / t.scale }

/-- `updatePan` (Canvas.tsx:270-289): add the pointer delta to the offset,
negating both components when the canvas is rotated. -/
def updatePan (isRotated : Bool) (t : ViewTransform) (lastPan client : Point) :
    ViewTransform :=
  { x := t.x + (if isRotated then -(client.x - lastPan.x) else client.x - lastPan.x)
    y := t.y + (if isRotated then -(client.y - lastPan.y) else client.y - lastPan.y)
    scale := t.scale }

/-- `Math.max(0.1, Math.min(5, v))`: the scale clamp of `zoom` (Canvas.tsx:311). -/
def clampScale5 (v : ℚ) : ℚ := max (1/10) (min 5 v)

/-- `delta > 0 ? 1.1 : 0.9` (Canvas.tsx:310). -/
def zoomFactor (delta : ℚ) : ℚ := if delta > 0 then 11/10 else 9/10

/-- `zoom` (Canvas.tsx:296-323): clamp the new scale to [0.1, 5] and recompute
the offset so the canvas point under the (rotation-adjusted) center stays
fixed.  `scaleChange = newScale / scale` is inlined. -/
def canvasZoom (isRotated : Bool) (rect : Rect) (t : ViewTransform)
    (delta centerX centerY : ℚ) : ViewTransform :=
  { x := adjX isRotated rect centerX -
      (adjX isRotated rect centerX - t.x) * (clampScale5 (t.scale * zoomFactor delta) / t.scale)
    y := adjY isRotated rect centerY -
      (adjY isRotated rect centerY - t.y) * (clampScale5 (t.scale * zoomFactor delta) / t.scale)
    scale := clampScale5 (t.scale * zoomFactor delta) }

/-- The scale/translate state of `DrawingCanvas.tsx`. -/
structure PanZoom where
  scale : ℚ
  translateX : ℚ
  translateY : ℚ
deriving DecidableEq, Repr

/-- `Math.max(0.1, Math.min(10, v))`: the scale clamp of `handleZoom`
(DrawingCanvas.tsx:231). -/
def clampScale10 (v : ℚ) : ℚ := max (1/10) (min 10 v)

/-- `e.deltaY < 0 ? 1.1 : 0.9` (DrawingCanvas.tsx:230). -/
def wheelFactor (deltaY : ℚ) : ℚ := if deltaY < 0 then 11/10 else 9/10

/-- `handleZoom` (DrawingCanvas.tsx:222-243): clamp the new scale to [0.1, 10]
and keep the canvas point under the mouse fixed. -/
def handleZoom (pz : PanZoom) (deltaY clientX clientY rectLeft rectTop : ℚ) : PanZoom :=
  { scale := clampScale10 (pz.scale * wheelFactor deltaY)
    translateX := (clientX - rectLeft) -
      ((clientX - rectLeft) - pz.translateX) / pz.scale * clampScale10 (pz.scale * wheelFactor deltaY)
    translateY := (clientY - rectTop) -
      ((clientY - rectTop) - pz.translateY) / pz.scale * clampScale10 (pz.scale * wheelFactor deltaY) }

/-! ## The eraser removal test as the spec states it -/

/-- The per-type removal test exactly as the spec's table (§4.3) words it: a
spec-side definition, to be compared with the source-side `keepElement`. -/
def specRemovalTest (P : Point) (r : ℚ) : DrawingElement → Prop
  | .stroke s => ∃ q ∈ s.points, distLe q P r
  | .shape sh =>
      match sh.type with
      | .rectangle =>
          min sh.startPoint.x sh.endPoint.x - r ≤ P.x ∧
          P.x ≤ max sh.startPoint.x sh.endPoint.x + r ∧
          min sh.startPoint.y sh.endPoint.y - r ≤ P.y ∧
          P.y ≤ max sh.startPoint.y sh.endPoint.y + r
      | .ellipse =>
          ((P.x - (sh.startPoint.x + sh.endPoint.x) / 2) /
              (|sh.endPoint.x - sh.startPoint.x| / 2 + r)) ^ 2 +
          ((P.y - (sh.startPoint.y + sh.endPoint.y) / 2) /
              (|sh.endPoint.y - sh.startPoint.y| / 2 + r)) ^ 2 ≤ 1
      | .line | .arrow =>
          let dx := sh.endPoint.x - sh.startPoint.x
          let dy := sh.endPoint.y - sh.startPoint.y
          if dx * dx + dy * dy = 0 then distLe P sh.startPoint r
          else
            let t := max 0 (min 1
              (((P.x - sh.startPoint.x) * dx + (P.y - sh.startPoint.y) * dy) /
                (dx * dx + dy * dy)))
            distLe P ⟨sh.startPoint.x + t * dx, sh.startPoint.y + t * dy⟩ r
  | .text t => distLe P t.position r
  | .image i => distLe P i.position r

/-! ## Mutating user actions (the snapshot-pushing operations) -/

/-- A state-mutating user action: gesture start (pen / shape / eraser), text
insert, image insert, or clear canvas.  Exactly the operations that call
`saveToUndoStack` first. -/
inductive MutAction where
  | start (newId : String) (p : Point)
  | insertText (t : DrawingText)
  | insertImage (i : DrawingImage)
  | clear

/-- Run a mutating action on the hook state. -/
def MutAction.apply : MutAction → HookState → HookState
  | .start newId p => startDrawing newId p
  | .insertText t => addText t
  | .insertImage i => addImage i
  | .clear => clearCanvas

/-! ## Fixtures for the concrete scenarios -/

/-- A default drawing state (the hook's `useState` initializer,
useDrawing.ts:5-15) holding the given elements and stacks. -/
def mkState (els : List DrawingElement) (us rs : List (List DrawingElement))
    (tool : DrawingTool) : DrawingState :=
  { elements := els, undoStack := us, redoStack := rs, currentTool := tool,
    currentColor := "#000000", currentWidth := 3, showGrid := true,
    tutorAtBottom := true, isFullscreen := false }

/-- Rectangle (0,0)-(50,50) of the spec's Scenario 2. -/
def scenario2Rect : DrawingShape :=
  { id := "rect1", type := .rectangle, startPoint := ⟨0, 0⟩, endPoint := ⟨50, 50⟩,
    color := "#000000", width := 3, isComplete := true }

/-- Line (100,100)-(200,200) of the spec's Scenario 2. -/
def scenario2Line : DrawingShape :=
  { id := "line1", type := .line, startPoint := ⟨100, 100⟩, endPoint := ⟨200, 200⟩,
    color := "#000000", width := 3, isComplete := true }

/-- Hook state of Scenario 2: elements = [rectangle, line]. -/
def scenario2State : HookState :=
  { drawing := mkState [.shape scenario2Rect, .shape scenario2Line] [] [] .eraser,
    currentStroke := none, currentShape := none, isDrawing := false }

/-- A finished stroke used in the history counterexample. -/
def strokeDone : DrawingStroke :=
  { id := "s1", tool := .pen, points := [⟨0, 0⟩, ⟨1, 1⟩], color := "#000000",
    width := 3, isComplete := true }

/-- A text element used in the history counterexample. -/
def textA : DrawingText :=
  { id := "t1", text := "hi", position := ⟨5, 5⟩, color := "#000000",
    fontSize := 16, fontFamily := "sans" }

/-- A state with a non-empty redo stack, reached e.g. by drawing and undoing. -/
def stateRedoFull : HookState :=
  { drawing := mkState [] [] [[.stroke strokeDone]] .pen,
    currentStroke := none, currentShape := none, isDrawing := false }

/-- A stroke mid-construction (`isComplete = false`). -/
def strokeActive : DrawingStroke :=
  { id := "s2", tool := .pen, points := [⟨0, 0⟩], color := "#000000",
    width := 3, isComplete := false }

/-- A hook state with a drawing gesture in progress: `isDrawingRef` set and
`currentStrokeRef` holding the incomplete stroke. -/
def stateMidGesture : HookState :=
  { drawing := mkState [.stroke strokeActive] [[]] [] .pen,
    currentStroke := some strokeActive, currentShape := none, isDrawing := true }

/-! ## Helper lemmas -/

theorem sqDist_comm (p q : Point) : sqDist p q = sqDist q p := by
  unfold sqDist; ring

theorem distLe_comm (p q : Point) (r : ℚ) : distLe p q r ↔ distLe q p r := by
  unfold distLe; rw [sqDist_comm]

/-- Every snapshot-pushing action pushes the pre-mutation element sequence and
clears the redo stack. -/
theorem MutAction.apply_stacks (a : MutAction) (h : HookState) :
    (a.apply h).drawing.undoStack = h.drawing.undoStack ++ [h.drawing.elements] ∧
    (a.apply h).drawing.redoStack = [] := by
  cases a with
  | start newId p =>
      cases ht : h.drawing.currentTool <;>
        simp [MutAction.apply, startDrawing, saveToUndoStack, addElement,
          eraseAtPoint, DrawingTool.shapeType, ht]
  | insertText t => simp [MutAction.apply, addText, addElement, saveToUndoStack]
  | insertImage i => simp [MutAction.apply, addImage, addElement, saveToUndoStack]
  | clear => simp [MutAction.apply, clearCanvas, saveToUndoStack]

/-- `continueDrawing` never touches either history stack. -/
theorem continueDrawing_stacks (p : Point) (h : HookState) :
    (continueDrawing p h).drawing.undoStack = h.drawing.undoStack ∧
    (continueDrawing p h).drawing.redoStack = h.drawing.redoStack := by
  unfold continueDrawing eraseAtPoint
  repeat' split
  all_goals simp

/-- Folding `continueDrawing` over any sample list never touches the stacks. -/
theorem foldl_continueDrawing_stacks (ps : List Point) (h : HookState) :
    (ps.foldl (fun acc q => continueDrawing q acc) h).drawing.undoStack =
      h.drawing.undoStack ∧
    (ps.foldl (fun acc q => continueDrawing q acc) h).drawing.redoStack =
      h.drawing.redoStack := by
  induction ps generalizing h with
  | nil => exact ⟨rfl, rfl⟩
  | cons q qs ih =>
      obtain ⟨h1, h2⟩ := continueDrawing_stacks q h
      obtain ⟨h3, h4⟩ := ih (continueDrawing q h)
      exact ⟨h3.trans h1, h4.trans h2⟩

/-! ## Claim theorems -/

/-- C1: Undo/redo are exact structural inverses: for every hook state `S0`, if
a mutating action `A` (which pushes the pre-mutation snapshot) produces `S1`,
then `undo()` restores the element sequence of `S0` element-for-element, and a
subsequent `redo()` restores the element sequence of `S1`
element-for-element. -/
theorem undo_redo_exact_inverses (a : MutAction) (h : HookState) :
    (undo (a.apply h)).drawing.elements = h.drawing.elements ∧
    (redo (undo (a.apply h))).drawing.elements = (a.apply h).drawing.elements := by
  obtain ⟨hu, hr⟩ := a.apply_stacks h
  have h1 : (undo (a.apply h)).drawing.elements = h.drawing.elements := by
    simp [undo, undoDrawing, hu, List.getLast?_concat]
  have h2 : (undo (a.apply h)).drawing.redoStack = [(a.apply h).drawing.elements] := by
    simp [undo, undoDrawing, hu, hr, List.getLast?_concat]
  have h3 : (redo (undo (a.apply h))).drawing.elements = (a.apply h).drawing.elements := by
    simp [redo, redoDrawing, h2]
  exact ⟨h1, h3⟩

/-- C9: `undo()` with an empty `undoStack` (and `redo()` with an empty
`redoStack`) is a silent no-op leaving the entire state unchanged; otherwise
`undo()` pops the last snapshot `S`, pushes the current elements onto
`redoStack` and sets the current elements to `S` (and `redo()`
symmetrically). -/
theorem undo_redo_exhausted_noop (h : HookState) :
    undo h = (if h.drawing.undoStack.isEmpty then h else
      { h with drawing := { h.drawing with
          elements := h.drawing.undoStack.getLastD []
          undoStack := h.drawing.undoStack.dropLast
          redoStack := h.drawing.redoStack ++ [h.drawing.elements] } }) ∧
    redo h = (if h.drawing.redoStack.isEmpty then h else
      { h with drawing := { h.drawing with
          elements := h.drawing.redoStack.getLastD []
          redoStack := h.drawing.redoStack.dropLast
          undoStack := h.drawing.undoStack ++ [h.drawing.elements] } }) := by
  constructor
  · rcases List.eq_nil_or_concat h.drawing.undoStack with hl | ⟨l, a, hl⟩ <;>
      simp [undo, undoDrawing, hl, List.getLast?_concat, List.getLastD_concat]
  · rcases List.eq_nil_or_concat h.drawing.redoStack with hl | ⟨l, a, hl⟩ <;>
      simp [redo, redoDrawing, hl, List.getLast?_concat, List.getLastD_concat]

/-- C10: `undo` and `redo` modify only `elements`, `undoStack` and
`redoStack`: `currentTool`, `currentColor`, `currentWidth`, `showGrid`,
`tutorAtBottom` and `isFullscreen` are unchanged by both. -/
theorem undo_redo_frame (h : HookState) :
    ((undo h).drawing.currentTool = h.drawing.currentTool ∧
     (undo h).drawing.currentColor = h.drawing.currentColor ∧
     (undo h).drawing.currentWidth = h.drawing.currentWidth ∧
     (undo h).drawing.showGrid = h.drawing.showGrid ∧
     (undo h).drawing.tutorAtBottom = h.drawing.tutorAtBottom ∧
     (undo h).drawing.isFullscreen = h.drawing.isFullscreen) ∧
    ((redo h).drawing.currentTool = h.drawing.currentTool ∧
     (redo h).drawing.currentColor = h.drawing.currentColor ∧
     (redo h).drawing.currentWidth = h.drawing.currentWidth ∧
     (redo h).drawing.showGrid = h.drawing.showGrid ∧
     (redo h).drawing.tutorAtBottom = h.drawing.tutorAtBottom ∧
     (redo h).drawing.isFullscreen = h.drawing.isFullscreen) := by
  constructor
  · cases hu : h.drawing.undoStack.getLast? <;> simp [undo, undoDrawing, hu]
  · cases hr : h.drawing.redoStack.getLast? <;> simp [redo, redoDrawing, hr]

/-- C7 counterexample: the claim "the undo and redo stacks are cleared only by
an explicit clear-canvas action" is false in the code: inserting a text
element (not a clear) empties a non-empty `redoStack`, and `clearCanvas`
itself does not clear the `undoStack` — it pushes onto it. -/
theorem stacks_cleared_only_by_clear_counterexample :
    stateRedoFull.drawing.redoStack.length = 1 ∧
    (addText textA stateRedoFull).drawing.redoStack = [] ∧
    (clearCanvas stateRedoFull).drawing.undoStack.length = 1 := by
  refine ⟨rfl, ?_, ?_⟩ <;>
    simp [stateRedoFull, mkState, addText, addElement, saveToUndoStack, clearCanvas]

/-- C7 (amended): undo/redo never clear the stacks on their own; the
`redoStack` is cleared by every snapshot-pushing action (gesture start,
text/image insert, and clear canvas alike), the `undoStack` is never cleared
(clear canvas pushes the pre-clear snapshot onto it), and the clear-canvas
action itself is undoable: `undo` after clear restores the pre-clear element
sequence. -/
theorem clear_canvas_undoable (h : HookState) (newId : String) (p : Point)
    (t : DrawingText) (img : DrawingImage) :
    (undo (clearCanvas h)).drawing.elements = h.drawing.elements ∧
    (clearCanvas h).drawing.elements = [] ∧
    (clearCanvas h).drawing.undoStack = h.drawing.undoStack ++ [h.drawing.elements] ∧
    (clearCanvas h).drawing.redoStack = [] ∧
    (startDrawing newId p h).drawing.redoStack = [] ∧
    (addText t h).drawing.redoStack = [] ∧
    (addImage img h).drawing.redoStack = [] := by
  obtain ⟨hcu, hcr⟩ := (MutAction.clear).apply_stacks h
  obtain ⟨hsu, hsr⟩ := (MutAction.start newId p).apply_stacks h
  obtain ⟨htu, htr⟩ := (MutAction.insertText t).apply_stacks h
  obtain ⟨hiu, hir⟩ := (MutAction.insertImage img).apply_stacks h
  simp only [MutAction.apply] at hcu hcr hsu hsr htu htr hiu hir
  refine ⟨?_, ?_, hcu, hcr, hsr, htr, hir⟩
  · simp [undo, undoDrawing, hcu, List.getLast?_concat]
  · simp [clearCanvas, saveToUndoStack]

/-- C8 counterexample: `flipRoles` does not finalize an in-progress gesture:
from a state mid-gesture, the flip leaves `isDrawingRef` set, leaves
`currentStrokeRef` holding the active stroke, and leaves the active element
incomplete — whereas `endDrawing` (pointer-up) marks it complete and clears
the reference. -/
theorem flip_finalizes_gesture_counterexample :
    stateMidGesture.isDrawing = true ∧
    stateMidGesture.currentStroke = some strokeActive ∧
    strokeActive.isComplete = false ∧
    (flipRoles stateMidGesture).isDrawing = true ∧
    (flipRoles stateMidGesture).currentStroke = some strokeActive ∧
    (flipRoles stateMidGesture).drawing.elements = [.stroke strokeActive] ∧
    (endDrawing stateMidGesture).isDrawing = false ∧
    (endDrawing stateMidGesture).currentStroke = none ∧
    (endDrawing stateMidGesture).drawing.elements =
      [.stroke { strokeActive with isComplete := true }] := by
  refine ⟨rfl, rfl, rfl, rfl, rfl, rfl, ?_, ?_, ?_⟩ <;>
    simp [endDrawing, stateMidGesture, mkState, strokeActive, updateElements,
      markComplete, DrawingElement.elemId]

/-- The top (student) pane's pointer handlers are disabled exactly when
`tutorAtBottom` holds (App.tsx: `disabled={drawingState.tutorAtBottom}`). -/
def topPaneDisabled (d : DrawingState) : Bool := d.tutorAtBottom

/-- The bottom (tutor) pane's handlers are disabled exactly when
`tutorAtBottom` is false (App.tsx: `disabled={!drawingState.tutorAtBottom}`). -/
def bottomPaneDisabled (d : DrawingState) : Bool := !d.tutorAtBottom

/-- C8 (amended): a role flip atomically swaps which viewport is the active
input source — it toggles the single `tutorAtBottom` flag from which both
panes' `disabled` props are derived, so the two panes exchange roles in one
state update — but it does not finalize an in-progress gesture: the elements,
the active stroke/shape references and the `isDrawing` flag are all left
untouched (finalization happens only through `endDrawing`). -/
theorem flip_swaps_active_viewport (h : HookState) :
    (flipRoles h).drawing.tutorAtBottom = !h.drawing.tutorAtBottom ∧
    topPaneDisabled (flipRoles h).drawing = bottomPaneDisabled h.drawing ∧
    bottomPaneDisabled (flipRoles h).drawing = topPaneDisabled h.drawing ∧
    (flipRoles h).drawing.elements = h.drawing.elements ∧
    (flipRoles h).drawing.undoStack = h.drawing.undoStack ∧
    (flipRoles h).drawing.redoStack = h.drawing.redoStack ∧
    (flipRoles h).currentStroke = h.currentStroke ∧
    (flipRoles h).currentShape = h.currentShape ∧
    (flipRoles h).isDrawing = h.isDrawing := by
  simp [flipRoles, topPaneDisabled, bottomPaneDisabled]

/-- C2: every state-mutating user action — `startDrawing` (pen, shape or
eraser tool), text insert, image insert, clear canvas — first pushes a value
copy of the current element sequence onto `undoStack` and clears `redoStack`;
and a drag-erase gesture (a `startDrawing` with the eraser tool followed by
any number of `continueDrawing` samples) pushes exactly one snapshot, at its
start. -/
theorem snapshot_discipline (h : HookState) (newId : String) (p : Point)
    (t : DrawingText) (img : DrawingImage) (erasePts : List Point) :
    ((startDrawing newId p h).drawing.undoStack =
        h.drawing.undoStack ++ [h.drawing.elements] ∧
      (startDrawing newId p h).drawing.redoStack = []) ∧
    ((addText t h).drawing.undoStack = h.drawing.undoStack ++ [h.drawing.elements] ∧
      (addText t h).drawing.redoStack = []) ∧
    ((addImage img h).drawing.undoStack = h.drawing.undoStack ++ [h.drawing.elements] ∧
      (addImage img h).drawing.redoStack = []) ∧
    ((clearCanvas h).drawing.undoStack = h.drawing.undoStack ++ [h.drawing.elements] ∧
      (clearCanvas h).drawing.redoStack = []) ∧
    ((erasePts.foldl (fun acc q => continueDrawing q acc)
        (startDrawing newId p (setTool .eraser h))).drawing.undoStack =
        h.drawing.undoStack ++ [h.drawing.elements] ∧
      (erasePts.foldl (fun acc q => continueDrawing q acc)
        (startDrawing newId p (setTool .eraser h))).drawing.redoStack = []) := by
  have hs := (MutAction.start newId p).apply_stacks h
  have ht := (MutAction.insertText t).apply_stacks h
  have hi := (MutAction.insertImage img).apply_stacks h
  have hc := (MutAction.clear).apply_stacks h
  simp only [MutAction.apply] at hs ht hi hc
  refine ⟨hs, ht, hi, hc, ?_⟩
  have hs2 := (MutAction.start newId p).apply_stacks (setTool .eraser h)
  simp only [MutAction.apply] at hs2
  obtain ⟨hf1, hf2⟩ :=
    foldl_continueDrawing_stacks erasePts (startDrawing newId p (setTool .eraser h))
  constructor
  · rw [hf1, hs2.1]; simp [setTool]
  · rw [hf2, hs2.2]

/-- C3: an erase pass at `P` with radius `r` removes exactly the elements
matching the per-type tests of the spec's table (`specRemovalTest`): strokes
by nearest path point, rectangles by inflated bounding box, ellipses by the
normalized inflated-axes test, lines/arrows by clamped-projection segment
distance, text/images by anchor distance; in particular, with elements
[Rectangle (0,0)-(50,50), Line (100,100)-(200,200)], erasing at (25,25) with
r = 10 removes the rectangle and retains the line. -/
theorem eraser_removal_tests (P : Point) (r : ℚ) (h : HookState) (e : DrawingElement) :
    (eraseAtPoint P r h).drawing.elements =
      h.drawing.elements.filter (keepElement P r) ∧
    (keepElement P r e = false ↔ specRemovalTest P r e) ∧
    (eraseAtPoint ⟨25, 25⟩ 10 scenario2State).drawing.elements =
      [.shape scenario2Line] := by
  refine ⟨rfl, ?_, ?_⟩
  · cases e with
    | stroke s => simp [keepElement, specRemovalTest, List.any_eq_true]
    | shape sh =>
      obtain ⟨sid, ty, sp, ep, c, w, ic⟩ := sh
      cases ty with
      | rectangle =>
          simp only [keepElement, specRemovalTest, Bool.not_eq_false',
            decide_eq_true_eq, ge_iff_le]
      | ellipse => simp [keepElement, specRemovalTest, not_lt, pow_two]
      | line =>
          simp only [keepElement, specRemovalTest]
          split <;> simp
      | arrow =>
          simp only [keepElement, specRemovalTest]
          split <;> simp
    | text t => simp [keepElement, specRemovalTest, distLe_comm]
    | image i => simp [keepElement, specRemovalTest, distLe_comm]
  · norm_num [eraseAtPoint, scenario2State, mkState, scenario2Rect, scenario2Line,
      keepElement, distLe, sqDist, List.filter]

/-! ## Zoom sequences -/

/-- A wheel/pinch zoom input to `Canvas.tsx`'s `zoom`: delta sign and screen
center. -/
structure ZoomEvt where
  delta : ℚ
  centerX : ℚ
  centerY : ℚ
deriving DecidableEq, Repr

/-- A wheel input to `DrawingCanvas.tsx`'s `handleZoom`. -/
structure WheelEvt where
  deltaY : ℚ
  clientX : ℚ
  clientY : ℚ
  rectLeft : ℚ
  rectTop : ℚ
deriving DecidableEq, Repr

/-- Fold a sequence of zoom operations through `Canvas.tsx`'s `zoom`. -/
def applyCanvasZooms (isRotated : Bool) (rect : Rect) (t : ViewTransform)
    (evs : List ZoomEvt) : ViewTransform :=
  evs.foldl (fun acc ev => canvasZoom isRotated rect acc ev.delta ev.centerX ev.centerY) t

/-- Fold a sequence of wheel zooms through `DrawingCanvas.tsx`'s `handleZoom`. -/
def applyHandleZooms (pz : PanZoom) (evs : List WheelEvt) : PanZoom :=
  evs.foldl (fun acc ev => handleZoom acc ev.deltaY ev.clientX ev.clientY ev.rectLeft ev.rectTop) pz

theorem clampScale5_mem (v : ℚ) : 1/10 ≤ clampScale5 v ∧ clampScale5 v ≤ 5 :=
  ⟨le_max_left _ _, max_le (by norm_num) (min_le_left _ _)⟩

theorem clampScale10_mem (v : ℚ) : 1/10 ≤ clampScale10 v ∧ clampScale10 v ≤ 10 :=
  ⟨le_max_left _ _, max_le (by norm_num) (min_le_left _ _)⟩

theorem applyCanvasZooms_scale_mem (isRotated : Bool) (rect : Rect)
    (t : ViewTransform) (evs : List ZoomEvt)
    (h1 : 1/10 ≤ t.scale) (h2 : t.scale ≤ 5) :
    1/10 ≤ (applyCanvasZooms isRotated rect t evs).scale ∧
      (applyCanvasZooms isRotated rect t evs).scale ≤ 5 := by
  induction evs generalizing t with
  | nil => exact ⟨h1, h2⟩
  | cons ev evs ih =>
      simp only [applyCanvasZooms, List.foldl_cons] at ih ⊢
      exact ih _ (clampScale5_mem _).1 (clampScale5_mem _).2

theorem applyHandleZooms_scale_mem (pz : PanZoom) (evs : List WheelEvt)
    (h1 : 1/10 ≤ pz.scale) (h2 : pz.scale ≤ 10) :
    1/10 ≤ (applyHandleZooms pz evs).scale ∧ (applyHandleZooms pz evs).scale ≤ 10 := by
  induction evs generalizing pz with
  | nil => exact ⟨h1, h2⟩
  | cons ev evs ih =>
      simp only [applyHandleZooms, List.foldl_cons] at ih ⊢
      exact ih _ (clampScale10_mem _).1 (clampScale10_mem _).2

/-- C4 counterexample: the claim that the zoom scale is clamped to [0.1, 5] is
false for `DrawingCanvas.tsx`'s `handleZoom`, which clamps to [0.1, 10]: from
`scale = 5` (inside [0.1, 5]) a single zoom-in yields `scale = 5.5 > 5`. -/
theorem zoom_clamp_counterexample :
    (1/10 : ℚ) ≤ (PanZoom.mk 5 0 0).scale ∧ (PanZoom.mk 5 0 0).scale ≤ 5 ∧
    (handleZoom (PanZoom.mk 5 0 0) (-1) 0 0 0 0).scale = 11/2 ∧
    (handleZoom (PanZoom.mk 5 0 0) (-1) 0 0 0 0).scale > 5 := by
  refine ⟨by norm_num, by norm_num, ?_, ?_⟩ <;>
    norm_num [handleZoom, clampScale10, wheelFactor, min_def, max_def]

/-- C4 (amended): each zoom handler clamps to its own fixed range and never
errors — `Canvas.tsx`'s `zoom` keeps the scale in [0.1, 5] across every
sequence of zoom operations started in range, while `DrawingCanvas.tsx`'s
`handleZoom` keeps it in [0.1, 10]; and starting at `scale = 1`, three
consecutive zoom-in calls at (100, 100) strictly increase the scale
(1 → 1.1 → 1.21 → 1.331) and never exceed the configured maximum. -/
theorem zoom_scale_clamped (isRotated : Bool) (rect : Rect) (t : ViewTransform)
    (evs : List ZoomEvt) (h1 : 1/10 ≤ t.scale) (h2 : t.scale ≤ 5)
    (pz : PanZoom) (wevs : List WheelEvt) (g1 : 1/10 ≤ pz.scale) (g2 : pz.scale ≤ 10)
    (x0 y0 : ℚ) :
    (1/10 ≤ (applyCanvasZooms isRotated rect t evs).scale ∧
      (applyCanvasZooms isRotated rect t evs).scale ≤ 5) ∧
    (1/10 ≤ (applyHandleZooms pz wevs).scale ∧ (applyHandleZooms pz wevs).scale ≤ 10) ∧
    (applyCanvasZooms isRotated rect ⟨x0, y0, 1⟩
        [⟨1, 100, 100⟩] ).scale = 11/10 ∧
    (applyCanvasZooms isRotated rect ⟨x0, y0, 1⟩
        [⟨1, 100, 100⟩, ⟨1, 100, 100⟩]).scale = 121/100 ∧
    (applyCanvasZooms isRotated rect ⟨x0, y0, 1⟩
        [⟨1, 100, 100⟩, ⟨1, 100, 100⟩, ⟨1, 100, 100⟩]).scale = 1331/1000 ∧
    (1 : ℚ) < 11/10 ∧ (11/10 : ℚ) < 121/100 ∧ (121/100 : ℚ) < 1331/1000 ∧
    (1331/1000 : ℚ) ≤ 5 := by
  refine ⟨applyCanvasZooms_scale_mem isRotated rect t evs h1 h2,
    applyHandleZooms_scale_mem pz wevs g1 g2, ?_, ?_, ?_, by norm_num, by norm_num,
    by norm_num, by norm_num⟩ <;>
    norm_num [applyCanvasZooms, canvasZoom, clampScale5, zoomFactor, min_def, max_def]

/-- C4 witness: the amended clamp theorem instantiated at `scale = 1` with one
zoom-in event for each handler. -/
theorem zoom_scale_clamped_witness :
    (1/10 : ℚ) ≤ (ViewTransform.mk 0 0 1).scale ∧ (ViewTransform.mk 0 0 1).scale ≤ 5 ∧
    (1/10 : ℚ) ≤ (PanZoom.mk 1 0 0).scale ∧ (PanZoom.mk 1 0 0).scale ≤ 10 ∧
    ((1/10 ≤ (applyCanvasZooms false ⟨0, 0, 800, 600⟩ ⟨0, 0, 1⟩ [⟨1, 100, 100⟩]).scale ∧
      (applyCanvasZooms false ⟨0, 0, 800, 600⟩ ⟨0, 0, 1⟩ [⟨1, 100, 100⟩]).scale ≤ 5) ∧
    (1/10 ≤ (applyHandleZooms ⟨1, 0, 0⟩ [⟨-1, 0, 0, 0, 0⟩]).scale ∧
      (applyHandleZooms ⟨1, 0, 0⟩ [⟨-1, 0, 0, 0, 0⟩]).scale ≤ 10) ∧
    (applyCanvasZooms false ⟨0, 0, 800, 600⟩ ⟨0, 0, 1⟩ [⟨1, 100, 100⟩]).scale = 11/10 ∧
    (applyCanvasZooms false ⟨0, 0, 800, 600⟩ ⟨0, 0, 1⟩
        [⟨1, 100, 100⟩, ⟨1, 100, 100⟩]).scale = 121/100 ∧
    (applyCanvasZooms false ⟨0, 0, 800, 600⟩ ⟨0, 0, 1⟩
        [⟨1, 100, 100⟩, ⟨1, 100, 100⟩, ⟨1, 100, 100⟩]).scale = 1331/1000 ∧
    (1 : ℚ) < 11/10 ∧ (11/10 : ℚ) < 121/100 ∧ (121/100 : ℚ) < 1331/1000 ∧
    (1331/1000 : ℚ) ≤ 5) :=
  ⟨by norm_num, by norm_num, by norm_num, by norm_num,
    zoom_scale_clamped false ⟨0, 0, 800, 600⟩ ⟨0, 0, 1⟩ [⟨1, 100, 100⟩]
      (by norm_num) (by norm_num) ⟨1, 0, 0⟩ [⟨-1, 0, 0, 0, 0⟩]
      (by norm_num) (by norm_num) 0 0⟩

/-- The x coordinate of the point reflected about the viewport center, in
client coordinates. -/
def reflectX (rect : Rect) (clientX : ℚ) : ℚ :=
  rect.left + (rect.width - (clientX - rect.left))

/-- The y counterpart of `reflectX`. -/
def reflectY (rect : Rect) (clientY : ℚ) : ℚ :=
  rect.top + (rect.height - (clientY - rect.top))

/-- C5: zoom-anchor invariant.  After `zoom` at screen center `(sx, sy)`, the
canvas point that was under `(sx, sy)` maps back to `(sx, sy)` under the new
transform: with `c` the (rect- and rotation-) adjusted center,
`(c - newOffset) / newScale = (c - offset) / scale`, for every transform with
scale in the clamp range; for an unrotated canvas whose bounding rect sits at
the origin this is literally `(sx - newX) / newScale = (sx - x) / scale`.
The same holds for `DrawingCanvas.tsx`'s `handleZoom`. -/
theorem zoom_anchor_invariant (isRotated : Bool) (rect : Rect) (t : ViewTransform)
    (h1 : 1/10 ≤ t.scale) (h2 : t.scale ≤ 5) (delta sx sy : ℚ)
    (w ht : ℚ) (pz : PanZoom) (g1 : 1/10 ≤ pz.scale) (g2 : pz.scale ≤ 10)
    (dY mx my L T : ℚ) :
    ((adjX isRotated rect sx - (canvasZoom isRotated rect t delta sx sy).x) /
        (canvasZoom isRotated rect t delta sx sy).scale =
      (adjX isRotated rect sx - t.x) / t.scale ∧
     (adjY isRotated rect sy - (canvasZoom isRotated rect t delta sx sy).y) /
        (canvasZoom isRotated rect t delta sx sy).scale =
      (adjY isRotated rect sy - t.y) / t.scale) ∧
    ((sx - (canvasZoom false ⟨0, 0, w, ht⟩ t delta sx sy).x) /
        (canvasZoom false ⟨0, 0, w, ht⟩ t delta sx sy).scale =
      (sx - t.x) / t.scale ∧
     (sy - (canvasZoom false ⟨0, 0, w, ht⟩ t delta sx sy).y) /
        (canvasZoom false ⟨0, 0, w, ht⟩ t delta sx sy).scale =
      (sy - t.y) / t.scale) ∧
    (((mx - L) - (handleZoom pz dY mx my L T).translateX) /
        (handleZoom pz dY mx my L T).scale =
      ((mx - L) - pz.translateX) / pz.scale ∧
     ((my - T) - (handleZoom pz dY mx my L T).translateY) /
        (handleZoom pz dY mx my L T).scale =
      ((my - T) - pz.translateY) / pz.scale) := by
  have hts : t.scale ≠ 0 := by positivity
  have hpz : pz.scale ≠ 0 := by positivity
  have hc5 : clampScale5 (t.scale * zoomFactor delta) ≠ 0 := by
    have := (clampScale5_mem (t.scale * zoomFactor delta)).1
    positivity
  have hc10 : clampScale10 (pz.scale * wheelFactor dY) ≠ 0 := by
    have := (clampScale10_mem (pz.scale * wheelFactor dY)).1
    positivity
  refine ⟨⟨?_, ?_⟩, ⟨?_, ?_⟩, ⟨?_, ?_⟩⟩ <;>
    · simp only [canvasZoom, handleZoom, adjX, adjY, Bool.false_eq_true,
        if_false, sub_zero]
      field_simp
      ring

/-- C5 witness: the anchor invariant instantiated at a concrete transform of
scale 1 zoomed in at (100, 100). -/
theorem zoom_anchor_invariant_witness :
    ((1/10 : ℚ) ≤ (ViewTransform.mk 0 0 1).scale ∧ (ViewTransform.mk 0 0 1).scale ≤ 5 ∧
     (1/10 : ℚ) ≤ (PanZoom.mk 1 0 0).scale ∧ (PanZoom.mk 1 0 0).scale ≤ 10) ∧
    (((adjX false ⟨0, 0, 800, 600⟩ 100 - (canvasZoom false ⟨0, 0, 800, 600⟩ ⟨0, 0, 1⟩ 1 100 100).x) /
        (canvasZoom false ⟨0, 0, 800, 600⟩ ⟨0, 0, 1⟩ 1 100 100).scale =
      (adjX false ⟨0, 0, 800, 600⟩ 100 - (ViewTransform.mk 0 0 1).x) / (ViewTransform.mk 0 0 1).scale ∧
     (adjY false ⟨0, 0, 800, 600⟩ 100 - (canvasZoom false ⟨0, 0, 800, 600⟩ ⟨0, 0, 1⟩ 1 100 100).y) /
        (canvasZoom false ⟨0, 0, 800, 600⟩ ⟨0, 0, 1⟩ 1 100 100).scale =
      (adjY false ⟨0, 0, 800, 600⟩ 100 - (ViewTransform.mk 0 0 1).y) / (ViewTransform.mk 0 0 1).scale) ∧
    ((100 - (canvasZoom false ⟨0, 0, 800, 600⟩ ⟨0, 0, 1⟩ 1 100 100).x) /
        (canvasZoom false ⟨0, 0, 800, 600⟩ ⟨0, 0, 1⟩ 1 100 100).scale =
      (100 - (ViewTransform.mk 0 0 1).x) / (ViewTransform.mk 0 0 1).scale ∧
     (100 - (canvasZoom false ⟨0, 0, 800, 600⟩ ⟨0, 0, 1⟩ 1 100 100).y) /
        (canvasZoom false ⟨0, 0, 800, 600⟩ ⟨0, 0, 1⟩ 1 100 100).scale =
      (100 - (ViewTransform.mk 0 0 1).y) / (ViewTransform.mk 0 0 1).scale) ∧
    (((3 - 0) - (handleZoom ⟨1, 0, 0⟩ (-1) 3 4 0 0).translateX) /
        (handleZoom ⟨1, 0, 0⟩ (-1) 3 4 0 0).scale =
      ((3 - 0) - (PanZoom.mk 1 0 0).translateX) / (PanZoom.mk 1 0 0).scale ∧
     ((4 - 0) - (handleZoom ⟨1, 0, 0⟩ (-1) 3 4 0 0).translateY) /
        (handleZoom ⟨1, 0, 0⟩ (-1) 3 4 0 0).scale =
      ((4 - 0) - (PanZoom.mk 1 0 0).translateY) / (PanZoom.mk 1 0 0).scale)) :=
  ⟨⟨by norm_num, by norm_num, by norm_num, by norm_num⟩,
    zoom_anchor_invariant false ⟨0, 0, 800, 600⟩ ⟨0, 0, 1⟩ (by norm_num) (by norm_num)
      1 100 100 800 600 ⟨1, 0, 0⟩ (by norm_num) (by norm_num) (-1) 3 4 0 0⟩

/-- C6: on a rotated viewport, `transformPoint` first reflects the incoming
pointer coordinates about the viewport's own center (`x → width − x`,
`y → height − y` in canvas-local coordinates) and only then applies the
inverse pan/zoom transform; `updatePan` negates incoming pan deltas in both
axes; consequently a gesture on the rotated pane at a screen point targets
exactly the canvas coordinates that the unrotated pane's handlers produce at
the reflected screen point, so both panes address the same shared canvas
space. -/
theorem rotated_viewport_input_mapping (rect : Rect) (t : ViewTransform)
    (cx cy : ℚ) (lastPan client : Point) :
    transformPoint true rect t cx cy =
      ⟨((rect.width - (cx - rect.left)) - t.x) / t.scale,
       ((rect.height - (cy - rect.top)) - t.y) / t.scale⟩ ∧
    transformPoint true rect t cx cy =
      transformPoint false rect t (reflectX rect cx) (reflectY rect cy) ∧
    updatePan true t lastPan client =
      ⟨t.x - (client.x - lastPan.x), t.y - (client.y - lastPan.y), t.scale⟩ ∧
    updatePan true t lastPan client =
      updatePan false t ⟨reflectX rect lastPan.x, reflectY rect lastPan.y⟩
        ⟨reflectX rect client.x, reflectY rect client.y⟩ := by
  refine ⟨?_, ?_, ?_, ?_⟩ <;>
    simp only [transformPoint, updatePan, adjX, adjY, reflectX, reflectY,
      if_true, Bool.false_eq_true, if_false, Point.mk.injEq, ViewTransform.mk.injEq] <;>
    ring_nf <;> simp
